import Mathlib

/-!
Shallow embedding of `src/add_to_s3.py` (s3-add-fraudulent pipeline).

The script reads fraud-incident records from a DynamoDB table, merges them
into per-company time windows, resolves each window to 10-K filing documents
through the SEC query API, marks the source incidents as scraped, extracts
three narrative sections from each resolved document and writes them to S3.

Modelling conventions:
* DynamoDB items become Lean structures; a Python key that may be absent
  becomes an `Option` field.
* Python numbers (years, months) are `Int`.
* The mutable DynamoDB table is a state type `σ` threaded explicitly; an
  `update_item` call transforms the state and yields a response `ρ`.
* Python exceptions are `Except`: a raised exception aborts the enclosing
  loop exactly as the Python exception would propagate out of the function.
* `pickle.dumps` is a fixed injective encoding, so an archived blob is
  modelled by the record it serialises.
-/

namespace S3AddFraud

/-- One fraud-incident record from the DynamoDB table (`fraud_company_info`
entries in the `__main__` block).  The `scraped` attribute may be absent,
hence `Option Bool`. -/
structure FraudIncident where
  cik : String
  company_name : String
  year_start : Int
  year_end : Int
  month_start : Int
  month_end : Int
  url : String
  contains_21c : Bool
  scraped : Option Bool
deriving Repr, DecidableEq

/-- The per-company aggregate stored in `time_ranges[cik]` by the
`__main__` aggregation loop. -/
structure FraudWindow where
  start_year : Int
  end_year : Int
  company_name : String
  urls : List String
deriving Repr, DecidableEq

/-- The eligibility filter of the `__main__` loop (lines 161-165):
a record is skipped (`continue`) when it is already scraped, malformed
(start year after end year), lacks the 21C flag, or spans less than six
months inside a single year. -/
def isExcluded (info : FraudIncident) : Bool :=
  info.scraped.getD false
  || decide (info.year_start > info.year_end)
  || !info.contains_21c
  || (decide (info.year_start = info.year_end)
      && decide (info.month_end - info.month_start < 6))

/-- The fresh `time_ranges[cik]` entry created for the first eligible record
of a company (lines 166-172). -/
def initWindow (info : FraudIncident) : FraudWindow :=
  { start_year := info.year_start
    end_year := info.year_end
    company_name := info.company_name
    urls := [info.url] }

/-- The in-place update applied when a later eligible record shares the
company identifier (lines 173-178): append the url, lower the start year
when the new record starts earlier, lower the end year when the new record
ends earlier. -/
def updateWindow (w : FraudWindow) (info : FraudIncident) : FraudWindow :=
  { w with
    urls := w.urls ++ [info.url]
    start_year := if w.start_year > info.year_start then info.year_start else w.start_year
    end_year := if w.end_year > info.year_end then info.year_end else w.end_year }

/-- Membership test of the Python dict `time_ranges` (`info["cik"] not in
time_ranges`).  The dict is modelled as an association list in insertion
order, which is exactly the iteration order of a Python dict. -/
def containsKey (tr : List (String × FraudWindow)) (k : String) : Bool :=
  tr.any (fun p => p.1 == k)

/-- Lookup in the association list modelling `time_ranges`. -/
def lookupWindow : List (String × FraudWindow) → String → Option FraudWindow
  | [], _ => none
  | p :: rest, k => if p.1 == k then some p.2 else lookupWindow rest k

/-- In-place modification of the entry with the given key, preserving
insertion order (Python `time_ranges[cik] = ...` on an existing key). -/
def modifyEntry : List (String × FraudWindow) → String → (FraudWindow → FraudWindow) → List (String × FraudWindow)
  | [], _, _ => []
  | p :: rest, k, f =>
    if p.1 == k then (p.1, f p.2) :: rest else p :: modifyEntry rest k f

/-- One iteration of the `__main__` aggregation loop (lines 160-178):
skip excluded records, otherwise create or update the company's window. -/
def aggregateStep (tr : List (String × FraudWindow)) (info : FraudIncident) : List (String × FraudWindow) :=
  if isExcluded info then tr
  else if containsKey tr info.cik then
    modifyEntry tr info.cik (fun w => updateWindow w info)
  else tr ++ [(info.cik, initWindow info)]

/-- The whole aggregation loop: fold the step over the scanned records,
starting from the empty dict `time_ranges = \x7b\x7d`. -/
def aggregate (records : List FraudIncident) : List (String × FraudWindow) :=
  records.foldl aggregateStep []

/-- A DynamoDB table handle: `update_item` takes the current table state,
the primary key `(company_name, url)`, and returns the new state together
with the response dict (`ReturnValues="UPDATED_NEW"`). -/
structure Table (σ ρ : Type) where
  update_item : σ → String → String → σ × ρ

/-- `update_status_dynamo` (lines 48-69): one `update_item` per url, in
order, returning the response of the last call.  The Python function
returns the loop variable `response` after the loop; when `urls` is empty
the variable was never bound and the `return` raises `NameError`, modelled
by the second component being `none`. -/
def update_status_dynamo {σ ρ : Type} (tbl : Table σ ρ) (s : σ) (company_name : String) (urls : List String) : σ × Option ρ :=
  urls.foldl
    (fun acc url =>
      let step := tbl.update_item acc.1 company_name url
      (step.1, some step.2))
    (s, none)

/-- Concrete table used to observe the calls `update_status_dynamo` makes:
the state is the trace of `(company_name, url)` keys updated so far, and
each response echoes the key that was updated. -/
def traceTable : Table (List (String × String)) (String × String) :=
  { update_item := fun s c u => (s ++ [(c, u)], (c, u)) }

/-- One entry of a filing's `documentFormatFiles` list. -/
structure SecDocument where
  type : String
  documentUrl : String
deriving Repr, DecidableEq

/-- One filing object returned by the SEC query API. -/
structure Filing where
  filedAt : String
  documentFormatFiles : List SecDocument
deriving Repr, DecidableEq

/-- The response of `query_api.get_filings`: the `"filings"` key may be
absent (`"filings" in filings` check), hence `Option`. -/
structure FilingsResponse where
  filings : Option (List Filing)
deriving Repr, DecidableEq

/-- One element of the `urls` list built by `get_10k_urls`. -/
structure UrlRecord where
  url : String
  cik : String
  year : String
deriving Repr, DecidableEq

/-- Errors a pipeline step can raise: a query-service exception, or the
`NameError` latent in `update_status_dynamo` (empty url list) and in
`get_from_dynamo` (misspelled variable in the pagination loop). -/
inductive PipelineError where
  | queryError (msg : String)
  | nameError
deriving Repr, DecidableEq

/-- The query string built for one window (lines 85-94).  `str(int(year))`
on an integral value prints the integer itself. -/
def buildQuery (key : String) (w : FraudWindow) : String :=
  "cik: \"" ++ key
    ++ "\" AND filedAt:\x7b" ++ toString w.start_year
    ++ "-01-01 TO " ++ toString w.end_year
    ++ "-12-31\x7d AND formType:\"10-K\" AND documentFormatFiles.type: \"10-K\""

/-- Python `str.lower()` on the document type strings: per-character ASCII
lowercasing over the string's characters. -/
def lowerStr (s : String) : String :=
  ⟨s.data.map Char.toLower⟩

/-- The inner document loop (lines 101-111): the first document of a filing
whose `type`, lowercased, equals `"10-k"`. -/
def firstTenK : List SecDocument → Option SecDocument
  | [] => none
  | d :: ds => if lowerStr d.type == "10-k" then some d else firstTenK ds

/-- The filing loop of `get_10k_urls` (lines 100-111): for each filing take
its first 10-K document; the `break` leaves only the inner document loop,
so the scan over filings continues.  Returns the records appended for this
window together with the final value of the `found` flag. -/
def scanFilings (key : String) : List Filing → List UrlRecord × Bool
  | [] => ([], false)
  | f :: fs =>
    let rest := scanFilings key fs
    match firstTenK f.documentFormatFiles with
    | some d =>
        ({ url := d.documentUrl, cik := key, year := f.filedAt.take 4 } :: rest.1, true)
    | none => rest

/-- The guard and loop for one window (lines 98-111): the loop body runs
only when the `"filings"` key is present and non-empty. -/
def processWindowFilings (key : String) (resp : FilingsResponse) : List UrlRecord × Bool :=
  match resp.filings with
  | some fs => if 0 < fs.length then scanFilings key fs else ([], false)
  | none => ([], false)

/-- `get_10k_urls` (lines 72-118), over the association list modelling the
`items` dict.  For each window: run the query (an exception aborts the
whole function), scan the filings, and when a document was found call
`update_status_dynamo` with the window's company name and urls (whose
latent `NameError` on an empty url list also aborts).  The records of all
windows are concatenated in iteration order. -/
def get_10k_urls {σ ρ : Type} (query_api : String → Except String FilingsResponse) (tbl : Table σ ρ) :
    σ → List (String × FraudWindow) → Except PipelineError (σ × List UrlRecord)
  | s, [] => Except.ok (s, [])
  | s, (key, w) :: rest =>
    match query_api (buildQuery key w) with
    | Except.error e => Except.error (PipelineError.queryError e)
    | Except.ok resp =>
      let scanned := processWindowFilings key resp
      let afterMark : Except PipelineError σ :=
        if scanned.2 then
          let upd := update_status_dynamo tbl s w.company_name w.urls
          match upd.2 with
          | some _ => Except.ok upd.1
          | none => Except.error PipelineError.nameError
        else Except.ok s
      match afterMark with
      | Except.error e => Except.error e
      | Except.ok s1 =>
        match get_10k_urls query_api tbl s1 rest with
        | Except.error e => Except.error e
        | Except.ok (s2, out) => Except.ok (s2, scanned.1 ++ out)

/-- A page returned by `table.scan`: the items plus the optional
continuation token `LastEvaluatedKey`. -/
structure ScanResponse (α : Type) where
  Items : List α
  LastEvaluatedKey : Option String
deriving Repr, DecidableEq

/-- `get_from_dynamo` (lines 27-45).  The store is a function from an
optional `ExclusiveStartKey` to a page.  The Python loop body reads the
misspelled variable `resposne`, which is bound nowhere, so the first time
the loop is entered (first response carrying a `LastEvaluatedKey`) the
function raises `NameError`; only a single-page scan returns. -/
def get_from_dynamo {α : Type} (scan : Option String → ScanResponse α) : Except PipelineError (List α) :=
  let response := scan none
  let items := response.Items
  if response.LastEvaluatedKey.isSome then Except.error PipelineError.nameError
  else Except.ok items

/-- The record pickled and written to S3 for one filing (lines 134-139):
the document url and the texts of sections "1A", "7" and "7A". -/
structure TenKItem where
  url : String
  item1A : String
  item7 : String
  item7A : String
deriving Repr, DecidableEq

/-- `add_to_s3` (lines 10-24): `bucket.put_object(Key=..., Body=...)`,
modelled as appending to the bucket's write trace. -/
def add_to_s3 (bucket : List (String × TenKItem)) (item_key : String) (item_body : TenKItem) : List (String × TenKItem) :=
  bucket ++ [(item_key, item_body)]

/-- `add_10k_info` (lines 121-142): for each url record, extract the three
sections (an extractor exception aborts the whole loop, as the Python
exception would), pickle the item and write it under
`fraudulent/{cik}/{year}.pkl`. -/
def add_10k_info (extractor_api : String → String → String → Except String String) :
    List (String × TenKItem) → List UrlRecord → Except String (List (String × TenKItem))
  | bucket, [] => Except.ok bucket
  | bucket, u :: rest =>
    match extractor_api u.url "1A" "text" with
    | Except.error e => Except.error e
    | Except.ok t1A =>
      match extractor_api u.url "7" "text" with
      | Except.error e => Except.error e
      | Except.ok t7 =>
        match extractor_api u.url "7A" "text" with
        | Except.error e => Except.error e
        | Except.ok t7A =>
          add_10k_info extractor_api
            (add_to_s3 bucket ("fraudulent/" ++ u.cik ++ "/" ++ u.year ++ ".pkl")
              { url := u.url, item1A := t1A, item7 := t7, item7A := t7A })
            rest

/-! Concrete instances used to evaluate the embedding on closed inputs. -/

/-- An eligible incident for company "X" (2018-2019). -/
def incA : FraudIncident :=
  { cik := "X", company_name := "Acme", year_start := 2018, year_end := 2019
    month_start := 1, month_end := 9, url := "u1", contains_21c := true, scraped := none }

/-- A second eligible incident for company "X" (2016-2018). -/
def incB : FraudIncident :=
  { cik := "X", company_name := "Acme", year_start := 2016, year_end := 2018
    month_start := 2, month_end := 11, url := "u2", contains_21c := true, scraped := none }

/-- A same-year incident spanning only three months (excluded). -/
def incShort : FraudIncident :=
  { cik := "Y", company_name := "Yoyo", year_start := 2020, year_end := 2020
    month_start := 1, month_end := 4, url := "u3", contains_21c := true, scraped := none }

/-- A window for company "X". -/
def exWindowX : FraudWindow :=
  { start_year := 2018, end_year := 2019, company_name := "Xcorp", urls := ["uX"] }

/-- A filing whose second document is the first 10-K. -/
def exFiling1 : Filing :=
  { filedAt := "2018-03-01T10:00:00-04:00"
    documentFormatFiles := [{ type := "EX-21", documentUrl := "ignore" },
                            { type := "10-K", documentUrl := "doc1" }] }

/-- A second filing with a 10-K document. -/
def exFiling2 : Filing :=
  { filedAt := "2019-03-05T10:00:00-04:00"
    documentFormatFiles := [{ type := "10-K", documentUrl := "doc2" }] }

/-- A query service returning the same two filings for every query. -/
def exApiTwo : String → Except String FilingsResponse :=
  fun _ => Except.ok { filings := some [exFiling1, exFiling2] }

/-- A query service returning zero filings for every query. -/
def exApiEmpty : String → Except String FilingsResponse :=
  fun _ => Except.ok { filings := some [] }

/-- Window for company "A" (its query will fail). -/
def exWindowA : FraudWindow :=
  { start_year := 2018, end_year := 2019, company_name := "Acme", urls := ["uA"] }

/-- Window for company "B" (its query will succeed). -/
def exWindowB : FraudWindow :=
  { start_year := 2015, end_year := 2016, company_name := "Bolt", urls := ["uB"] }

/-- The filing resolved for window "B". -/
def exFilingB : Filing :=
  { filedAt := "2016-02-03T00:00:00-04:00"
    documentFormatFiles := [{ type := "10-K", documentUrl := "docB" }] }

/-- A query service that fails for every query except window "B"'s. -/
def exApiFail : String → Except String FilingsResponse :=
  fun q =>
    if q == buildQuery "B" exWindowB then Except.ok { filings := some [exFilingB] }
    else Except.error "service down"

/-- An extractor whose every call raises. -/
def exExtractFail : String → String → String → Except String String :=
  fun _ _ _ => Except.error "extractor down"

/-- A store whose scan spans three pages. -/
def scanThreePages : Option String → ScanResponse Nat :=
  fun k =>
    match k with
    | none => { Items := [1, 2], LastEvaluatedKey := some "page2" }
    | some "page2" => { Items := [3, 4], LastEvaluatedKey := some "page3" }
    | some _ => { Items := [5, 6], LastEvaluatedKey := none }

/-- A store whose scan fits in one page. -/
def scanOnePage : Option String → ScanResponse Nat :=
  fun _ => { Items := [1, 2], LastEvaluatedKey := none }

/-! Helper lemmas (shared by several claim theorems). -/

/-- The update loop of `update_status_dynamo`, over the trace table, from an
arbitrary accumulator: the final state is the initial trace extended with one
`(company_name, url)` key per url in order, and the response slot is folded
to the last response. -/
lemma trace_foldl (c : String) : ∀ (urls : List String) (s : List (String × String)) (r : Option (String × String)),
    List.foldl
      (fun acc url =>
        let step := traceTable.update_item acc.1 c url
        (step.1, some step.2))
      (s, r) urls
    = (s ++ urls.map (fun u => (c, u)), urls.foldl (fun _ u => some (c, u)) r) := by
  intro urls
  induction urls with
  | nil => intro s r; simp
  | cons u us ih =>
    intro s r
    rw [List.foldl_cons, List.foldl_cons]
    exact (ih (s ++ [(c, u)]) (some (c, u))).trans (by simp)

/-- Folding the response slot over a non-empty url list yields the response
of the last url. -/
lemma foldl_last_some (c : String) : ∀ (urls : List String) (h : urls ≠ []) (r : Option (String × String)),
    urls.foldl (fun _ u => some (c, u)) r = some (c, urls.getLast h) := by
  intro urls
  induction urls with
  | nil => intro h; exact absurd rfl h
  | cons u us ih =>
    intro h r
    cases us with
    | nil => rfl
    | cons v vs =>
      rw [List.foldl_cons, ih (by simp) (some (c, u))]
      exact congrArg (fun x => some (c, x)) (List.getLast_cons (by simp)).symm

/-- Closed form of `update_status_dynamo` over the trace table on a
non-empty url list. -/
lemma update_status_dynamo_eq (s : List (String × String)) (c : String)
    (urls : List String) (h : urls ≠ []) :
    update_status_dynamo traceTable s c urls
      = (s ++ urls.map (fun u => (c, u)), some (c, urls.getLast h)) := by
  unfold update_status_dynamo
  rw [trace_foldl c urls s none, foldl_last_some c urls h none]

/-- Claim C10: `update_status_dynamo` performs exactly one update per URL in
the order given (the trace grows by one `(company_name, url)` key per url,
in order) and returns the response of the last update; for the empty URL
list the Python `return response` raises `NameError` because the loop never
bound `response`, modelled by the `none` response, so a non-empty list is a
precondition for a normal return. -/
theorem update_status_dynamo_spec (s : List (String × String)) (c : String)
    (urls : List String) (h : urls ≠ []) :
    (update_status_dynamo traceTable s c urls).1 = s ++ urls.map (fun u => (c, u))
    ∧ (update_status_dynamo traceTable s c urls).2 = some (c, urls.getLast h)
    ∧ (update_status_dynamo traceTable s c []).2 = none := by
  have heq := update_status_dynamo_eq s c urls h
  exact ⟨by rw [heq], by rw [heq], rfl⟩

/-- Witness for C10 at a concrete company and two urls. -/
theorem update_status_dynamo_spec_witness :
    (update_status_dynamo traceTable [] "acme" ["u1", "u2"]).1 = [("acme", "u1"), ("acme", "u2")]
    ∧ (update_status_dynamo traceTable [] "acme" ["u1", "u2"]).2 = some ("acme", "u2")
    ∧ (update_status_dynamo traceTable [] "acme" []).2 = none := by
  have h := update_status_dynamo_spec [] "acme" ["u1", "u2"] (by decide)
  exact ⟨by rw [h.1]; rfl, by rw [h.2.1]; rfl, h.2.2⟩

/-- Claim C2: the pagination loop of `get_from_dynamo` reads the misspelled
variable `resposne`, which is never bound, so any scan whose first page
carries a continuation token raises `NameError` instead of concatenating
the pages; only a single-page scan returns its items.  Evaluated here at a
three-page store (failing input) and at a one-page store. -/
theorem pagination_name_error :
    get_from_dynamo scanThreePages = Except.error PipelineError.nameError
    ∧ get_from_dynamo scanOnePage = Except.ok [1, 2] :=
  ⟨rfl, rfl⟩

/-- The year update of `updateWindow` is the minimum. -/
lemma if_gt_eq_min (a b : Int) : (if a > b then b else a) = min a b := by
  rcases le_or_lt a b with hab | hab
  · rw [if_neg (not_lt.mpr hab), min_eq_left hab]
  · rw [if_pos hab, min_eq_right hab.le]

/-- Folding `updateWindow` over a list of incidents takes the minimum of
the start years, the minimum of the end years, keeps the company name and
appends the urls in order. -/
lemma foldl_updateWindow : ∀ (rest : List FraudIncident) (w : FraudWindow),
    List.foldl updateWindow w rest =
      { start_year := List.foldl min w.start_year (rest.map FraudIncident.year_start)
        end_year := List.foldl min w.end_year (rest.map FraudIncident.year_end)
        company_name := w.company_name
        urls := w.urls ++ rest.map FraudIncident.url } := by
  intro rest
  induction rest with
  | nil => intro w; simp
  | cons r rs ih =>
    intro w
    rw [List.foldl_cons, ih (updateWindow w r)]
    simp [updateWindow, if_gt_eq_min]

/-- Once a company's window exists, every further eligible record of that
company is merged into it in place. -/
lemma foldl_aggregateStep_single (k : String) : ∀ (rest : List FraudIncident) (w : FraudWindow),
    (∀ r ∈ rest, r.cik = k) → (∀ r ∈ rest, isExcluded r = false) →
    List.foldl aggregateStep [(k, w)] rest = [(k, List.foldl updateWindow w rest)] := by
  intro rest
  induction rest with
  | nil => intro w _ _; rfl
  | cons r rs ih =>
    intro w hcik helig
    have hk : r.cik = k := hcik r (by simp)
    have he : isExcluded r = false := helig r (by simp)
    have hstep : aggregateStep [(k, w)] r = [(k, updateWindow w r)] := by
      simp [aggregateStep, he, containsKey, modifyEntry, hk]
    rw [List.foldl_cons, List.foldl_cons, hstep]
    exact ih (updateWindow w r)
      (fun x hx => hcik x (by simp [hx]))
      (fun x hx => helig x (by simp [hx]))

/-- Claim C3: for eligible records sharing one company identifier, the
aggregated window's start year is the minimum of the contributing start
years, its end year is the minimum (not the maximum) of the contributing
end years, and its url list is the concatenation of the records' urls in
input order, duplicates preserved. -/
theorem aggregate_merge_rule (k : String) (r0 : FraudIncident) (rest : List FraudIncident)
    (hcik : ∀ r ∈ r0 :: rest, r.cik = k)
    (helig : ∀ r ∈ r0 :: rest, isExcluded r = false) :
    aggregate (r0 :: rest) =
      [(k, { start_year := List.foldl min r0.year_start (rest.map FraudIncident.year_start)
             end_year := List.foldl min r0.year_end (rest.map FraudIncident.year_end)
             company_name := r0.company_name
             urls := (r0 :: rest).map FraudIncident.url })] := by
  have hk0 : r0.cik = k := hcik r0 (by simp)
  have he0 : isExcluded r0 = false := helig r0 (by simp)
  have hfirst : aggregateStep [] r0 = [(r0.cik, initWindow r0)] := by
    simp [aggregateStep, he0, containsKey]
  rw [aggregate, List.foldl_cons, hfirst, hk0,
      foldl_aggregateStep_single k rest (initWindow r0)
        (fun x hx => hcik x (by simp [hx]))
        (fun x hx => helig x (by simp [hx])),
      foldl_updateWindow]
  simp [initWindow]

/-- Witness for C3: two incidents for company "X" merge into the window
with the earlier start year, the earlier end year and both urls in order. -/
theorem aggregate_merge_rule_witness :
    aggregate [incA, incB] =
      [("X", { start_year := 2016, end_year := 2018, company_name := "Acme", urls := ["u1", "u2"] })] := by
  have h := aggregate_merge_rule "X" incA [incB] (by decide) (by decide)
  rw [h]; decide

/-- A merged window differs from its previous value: the url list grew. -/
lemma updateWindow_ne (w : FraudWindow) (r : FraudIncident) : updateWindow w r ≠ w := by
  intro h
  have hurls := congrArg FraudWindow.urls h
  have hlen := congrArg List.length hurls
  simp [updateWindow] at hlen

/-- Modifying an existing entry with a function that changes every window
changes the association list. -/
lemma modifyEntry_ne (k : String) (f : FraudWindow → FraudWindow)
    (hf : ∀ w, f w ≠ w) :
    ∀ tr : List (String × FraudWindow), containsKey tr k = true → modifyEntry tr k f ≠ tr := by
  intro tr
  induction tr with
  | nil => simp [containsKey]
  | cons p rest ih =>
    obtain ⟨pk, pw⟩ := p
    intro hck heq
    by_cases hk : pk == k
    · rw [modifyEntry, if_pos hk] at heq
      simp only [List.cons.injEq, Prod.mk.injEq] at heq
      exact hf pw heq.1.2
    · rw [modifyEntry, if_neg hk] at heq
      simp only [List.cons.injEq] at heq
      have hck' : containsKey rest k = true := by
        simp only [containsKey, List.any_cons, Bool.or_eq_true] at hck
        rcases hck with hck | hck
        · exact absurd hck hk
        · exact hck
      exact ih hck' heq.2

/-- The Boolean eligibility filter, spelled out as a proposition. -/
lemma isExcluded_eq_true_iff (r : FraudIncident) :
    isExcluded r = true ↔
      (r.scraped.getD false = true ∨ r.year_start > r.year_end ∨ r.contains_21c = false
       ∨ (r.year_start = r.year_end ∧ r.month_end - r.month_start < 6)) := by
  simp only [isExcluded, Bool.or_eq_true, Bool.and_eq_true, decide_eq_true_eq,
    Bool.not_eq_true']
  tauto

/-- Claim C4: one step of the aggregation loop leaves the window map
unchanged (the record is excluded, merged into no window) exactly when the
record is already marked scraped, or its start year exceeds its end year,
or its 21C flag is false, or it starts and ends in the same year less than
six months apart; every other record is merged (the map changes). -/
theorem aggregation_excludes_iff (tr : List (String × FraudWindow)) (r : FraudIncident) :
    aggregateStep tr r = tr ↔
      (r.scraped.getD false = true ∨ r.year_start > r.year_end ∨ r.contains_21c = false
       ∨ (r.year_start = r.year_end ∧ r.month_end - r.month_start < 6)) := by
  rw [← isExcluded_eq_true_iff]
  constructor
  · intro heq
    cases hval : isExcluded r with
    | true => rfl
    | false =>
      exfalso
      rw [aggregateStep, hval] at heq
      simp only [Bool.false_eq_true, if_false] at heq
      by_cases hck : containsKey tr r.cik
      · exact modifyEntry_ne r.cik (fun w => updateWindow w r)
          (fun w => updateWindow_ne w r) tr hck (by rwa [if_pos hck] at heq)
      · rw [if_neg hck] at heq
        have hlen := congrArg List.length heq
        simp at hlen
  · intro hex
    simp [aggregateStep, hex]

/-- Witness for C4: a same-year three-month incident is excluded (the map
stays empty), by the backward direction of the equivalence. -/
theorem aggregation_excludes_iff_witness :
    aggregateStep [] incShort = [] :=
  (aggregation_excludes_iff [] incShort).mpr
    (Or.inr (Or.inr (Or.inr (by decide))))

/-- Claim C9: the aggregation loop is deterministic; two runs over equal
input sequences produce equal window maps, url orders included. -/
theorem aggregate_deterministic (l1 l2 : List FraudIncident) (h : l1 = l2) :
    aggregate l1 = aggregate l2 := by rw [h]

/-- Witness for C9 at a concrete input sequence. -/
theorem aggregate_deterministic_witness :
    aggregate [incA, incB] = aggregate [incA, incB] :=
  aggregate_deterministic [incA, incB] [incA, incB] rfl

/-- Unfolding of the filing scan when the head filing has no 10-K
document. -/
lemma scanFilings_cons_none (key : String) (f : Filing) (fs : List Filing)
    (hd : firstTenK f.documentFormatFiles = none) :
    scanFilings key (f :: fs) = scanFilings key fs := by
  simp [scanFilings, hd]

/-- Unfolding of the filing scan when the head filing has a first 10-K
document. -/
lemma scanFilings_cons_some (key : String) (f : Filing) (fs : List Filing)
    (d : SecDocument) (hd : firstTenK f.documentFormatFiles = some d) :
    scanFilings key (f :: fs) =
      ({ url := d.documentUrl, cik := key, year := f.filedAt.take 4 } :: (scanFilings key fs).1,
       true) := by
  simp [scanFilings, hd]

/-- Claim C1, amended: the scan over a filing's documents stops at that
filing's first case-insensitive 10-K match, but the loop over filings does
not stop: one record is produced per returned filing that has a 10-K
document, so a window can yield several records; the found flag is set
exactly when some filing has a 10-K document. -/
theorem scanFilings_per_filing (key : String) (fs : List Filing) :
    (scanFilings key fs).1 =
      fs.filterMap (fun f =>
        (firstTenK f.documentFormatFiles).map
          (fun d => { url := d.documentUrl, cik := key, year := f.filedAt.take 4 }))
    ∧ (scanFilings key fs).2 = fs.any (fun f => (firstTenK f.documentFormatFiles).isSome) := by
  induction fs with
  | nil => exact ⟨rfl, rfl⟩
  | cons f fs ih =>
    cases hd : firstTenK f.documentFormatFiles with
    | none =>
      rw [scanFilings_cons_none key f fs hd]
      refine ⟨?_, ?_⟩
      · rw [ih.1, List.filterMap_cons, hd]
        rfl
      · rw [ih.2, List.any_cons, hd]
        rfl
    | some d =>
      rw [scanFilings_cons_some key f fs d hd]
      refine ⟨?_, ?_⟩
      · rw [List.filterMap_cons, hd]
        simpa using ih.1
      · rw [List.any_cons, hd]
        simp

/-- Counterexample to claim C1 as stated: a single window whose query
returns two filings, each containing a 10-K document, yields two records,
not at most one; the first filing's record comes from its first matching
document (its second entry), the second filing still contributes. -/
theorem first_match_counterexample :
    get_10k_urls exApiTwo traceTable [] [("X", exWindowX)]
      = Except.ok ([("Xcorp", "uX")],
          [{ url := "doc1", cik := "X", year := "2018" },
           { url := "doc2", cik := "X", year := "2019" }]) := by
  rfl

/-- Any document returned by the inner scan belongs to the scanned list and
its type, lowercased, is exactly "10-k". -/
lemma firstTenK_mem : ∀ (ds : List SecDocument) (d : SecDocument),
    firstTenK ds = some d → d ∈ ds ∧ lowerStr d.type = "10-k" := by
  intro ds
  induction ds with
  | nil => intro d h; cases h
  | cons x xs ih =>
    intro d h
    by_cases hx : lowerStr x.type == "10-k"
    · rw [firstTenK, if_pos hx] at h
      cases h
      exact ⟨by simp, by simpa using hx⟩
    · rw [firstTenK, if_neg hx] at h
      rcases ih d h with ⟨hm, ht⟩
      exact ⟨by simp [hm], ht⟩

/-- Claim C8: the query built for a window filters to the company
identifier, to filings filed in the window's start-to-end year range
(January 1 to December 31 bounds in the date-range clause), to form type
10-K, and to filings having a documentFormatFiles entry of type 10-K; and
every record the scan produces comes from a document whose type equals
"10-K" case-insensitively, carrying the first four characters of the
filing's filedAt timestamp as its year. -/
theorem query_and_resolution (key : String) (w : FraudWindow) (fs : List Filing) :
    buildQuery key w =
      "cik: \"" ++ key ++ "\" AND filedAt:\x7b" ++ toString w.start_year
        ++ "-01-01 TO " ++ toString w.end_year
        ++ "-12-31\x7d AND formType:\"10-K\" AND documentFormatFiles.type: \"10-K\""
    ∧ ∀ rec ∈ (scanFilings key fs).1, ∃ f, f ∈ fs ∧ ∃ d, d ∈ f.documentFormatFiles ∧
        lowerStr d.type = "10-k" ∧
        rec = { url := d.documentUrl, cik := key, year := f.filedAt.take 4 } := by
  refine ⟨rfl, ?_⟩
  induction fs with
  | nil => intro rec h; cases h
  | cons f fs ih =>
    intro rec hrec
    cases hd : firstTenK f.documentFormatFiles with
    | none =>
      rw [scanFilings_cons_none key f fs hd] at hrec
      rcases ih rec hrec with ⟨f1, hf1, rest⟩
      exact ⟨f1, by simp [hf1], rest⟩
    | some d =>
      rw [scanFilings_cons_some key f fs d hd] at hrec
      rcases List.mem_cons.mp hrec with hhead | htail
      · rcases firstTenK_mem f.documentFormatFiles d hd with ⟨hm, ht⟩
        exact ⟨f, by simp, d, hm, ht, hhead⟩
      · rcases ih rec htail with ⟨f1, hf1, rest⟩
        exact ⟨f1, by simp [hf1], rest⟩

/-- Witness for C8: the record resolved from a concrete filing carries the
first four characters of its filedAt timestamp as its year. -/
theorem query_and_resolution_witness :
    ∃ f, f ∈ [exFiling2] ∧ ∃ d, d ∈ f.documentFormatFiles ∧
      lowerStr d.type = "10-k" ∧
      ({ url := "doc2", cik := "X", year := "2019" } : UrlRecord)
        = { url := d.documentUrl, cik := "X", year := f.filedAt.take 4 } :=
  (query_and_resolution "X" exWindowX [exFiling2]).2
    { url := "doc2", cik := "X", year := "2019" }
    (by
      rw [show (scanFilings "X" [exFiling2]).1
            = [{ url := "doc2", cik := "X", year := "2019" }] from rfl]
      exact List.mem_singleton.mpr rfl)

/-- Claim C7: for every resolved filing, the archiver builds the record of
the document url and the texts of sections "1A", "7" and "7A", and writes
its serialisation under the key fraudulent/{cik}/{year}.pkl, one write per
record in order. -/
theorem archive_record_layout (ex : String → String → String → String)
    (bucket : List (String × TenKItem)) (urls : List UrlRecord) :
    add_10k_info (fun u sec fmt => Except.ok (ex u sec fmt)) bucket urls =
      Except.ok (bucket ++ urls.map (fun u =>
        ("fraudulent/" ++ u.cik ++ "/" ++ u.year ++ ".pkl",
         { url := u.url, item1A := ex u.url "1A" "text"
           item7 := ex u.url "7" "text", item7A := ex u.url "7A" "text" }))) := by
  induction urls generalizing bucket with
  | nil => simp [add_10k_info]
  | cons u rest ih =>
    have step : add_10k_info (fun u sec fmt => Except.ok (ex u sec fmt)) bucket (u :: rest)
        = add_10k_info (fun u sec fmt => Except.ok (ex u sec fmt))
            (add_to_s3 bucket ("fraudulent/" ++ u.cik ++ "/" ++ u.year ++ ".pkl")
              { url := u.url, item1A := ex u.url "1A" "text"
                item7 := ex u.url "7" "text", item7A := ex u.url "7A" "text" })
            rest := rfl
    rw [step, ih]
    simp [add_to_s3]

/-- Counterexample to claim C5 as stated: with two windows whose first
query fails, the whole run returns the error — resolution is not scoped to
the failing window — although the second window alone would have resolved
to a record and a scraped mark. -/
theorem failure_aborts_counterexample :
    get_10k_urls exApiFail traceTable [] [("A", exWindowA), ("B", exWindowB)]
        = Except.error (PipelineError.queryError "service down")
    ∧ get_10k_urls exApiFail traceTable [] [("B", exWindowB)]
        = Except.ok ([("Bolt", "uB")], [{ url := "docB", cik := "B", year := "2016" }]) :=
  ⟨rfl, rfl⟩

/-- Claim C5, amended: a failure of the filing query service while
resolving one window aborts the whole run (the exception propagates out of
the resolver, the remaining windows are not processed and no result is
returned); likewise a failure extracting one filing's sections aborts the
whole archive loop, skipping the remaining filings. -/
theorem failure_propagation {σ ρ : Type} (api : String → Except String FilingsResponse)
    (tbl : Table σ ρ) (s : σ) (key : String) (w : FraudWindow)
    (rest : List (String × FraudWindow)) (e : String)
    (ex : String → String → String → Except String String)
    (bucket : List (String × TenKItem)) (u : UrlRecord) (rest2 : List UrlRecord) (e2 : String)
    (h1 : api (buildQuery key w) = Except.error e)
    (h2 : ex u.url "1A" "text" = Except.error e2) :
    get_10k_urls api tbl s ((key, w) :: rest) = Except.error (PipelineError.queryError e)
    ∧ add_10k_info ex bucket (u :: rest2) = Except.error e2 := by
  constructor
  · rw [get_10k_urls, h1]
  · rw [add_10k_info, h2]

/-- Witness for C5 (amended) at a concrete failing query service and a
concrete failing extractor. -/
theorem failure_propagation_witness :
    get_10k_urls exApiFail traceTable ([] : List (String × String)) [("A", exWindowA)]
        = Except.error (PipelineError.queryError "service down")
    ∧ add_10k_info exExtractFail [] [{ url := "docB", cik := "B", year := "2016" }]
        = Except.error "extractor down" :=
  failure_propagation exApiFail traceTable [] "A" exWindowA [] "service down"
    exExtractFail [] { url := "docB", cik := "B", year := "2016" } [] "extractor down"
    rfl rfl

/-- Claim C6: in the resolver loop, `update_status_dynamo` is called with
the window's company name and all of its urls exactly when the window's
scan found a 10-K document: when nothing was found the trace state is
passed on unchanged and the run continues with the remaining windows; and
a query answering zero filings produces no record and no found flag. -/
theorem mark_scraped_iff_found (api : String → Except String FilingsResponse)
    (resp : FilingsResponse) (key : String) (w : FraudWindow)
    (s : List (String × String)) (rest : List (String × FraudWindow))
    (h : api (buildQuery key w) = Except.ok resp) :
    ((processWindowFilings key resp).2 = false →
      get_10k_urls api traceTable s ((key, w) :: rest) =
        (get_10k_urls api traceTable s rest).map
          (fun p => (p.1, (processWindowFilings key resp).1 ++ p.2)))
    ∧ ((processWindowFilings key resp).2 = true → w.urls ≠ [] →
      get_10k_urls api traceTable s ((key, w) :: rest) =
        (get_10k_urls api traceTable (s ++ w.urls.map (fun u => (w.company_name, u))) rest).map
          (fun p => (p.1, (processWindowFilings key resp).1 ++ p.2)))
    ∧ (resp.filings = some [] → processWindowFilings key resp = ([], false)) := by
  refine ⟨?_, ?_, ?_⟩
  · intro hf
    cases hrec : get_10k_urls api traceTable s rest with
    | error e => simp [get_10k_urls, h, hf, hrec, Except.map]
    | ok p =>
      obtain ⟨s2, out⟩ := p
      simp [get_10k_urls, h, hf, hrec, Except.map]
  · intro hf hu
    have hupd := update_status_dynamo_eq s w.company_name w.urls hu
    cases hrec : get_10k_urls api traceTable (s ++ w.urls.map fun u => (w.company_name, u)) rest with
    | error e => simp [get_10k_urls, h, hf, hupd, hrec, Except.map]
    | ok p =>
      obtain ⟨s2, out⟩ := p
      simp [get_10k_urls, h, hf, hupd, hrec, Except.map]
  · intro h0
    simp [processWindowFilings, h0]

/-- Witness for C6: a query answering zero filings yields no record, no
update call (empty trace) and a normal continuation. -/
theorem mark_scraped_iff_found_witness :
    get_10k_urls exApiEmpty traceTable [] [("X", exWindowX)] = Except.ok ([], []) := by
  have h := (mark_scraped_iff_found exApiEmpty { filings := some [] } "X" exWindowX [] [] rfl).1 rfl
  rw [h]; rfl

end S3AddFraud
